import Mathlib

/-
Verification of the SOMAIclass travel-wizard application (src/app.py,
src/genai.py, src/utils.py) against its natural-language specification.

The embedding is shallow: pandas dataframes become lists of rows, Python
dicts become association lists over a small value type `PyVal`, machine
floats produced by integer division become `Option ℚ` (none standing for
the non-finite values inf, -inf and nan that the cleaning step removes),
and the Streamlit session is an explicit state record driven by a step
function over user actions.  External effects (the OpenAI endpoint, the
markdown renderer, the random tweet sampler) are parameters gathered in
`Env`: the program under study never inspects their output beyond what is
modelled here, so universally quantifying over `Env` captures every
behaviour of the real services.
-/

namespace SOMAI

/-- Values manipulated by the Python code: JSON-parsed values and the
entries of the travel-plan dictionary.  Mirrors the types that actually
occur in the source (strings, ints, booleans, None, lists, dicts with
string keys). -/
inductive PyVal where
  | pstr (s : String)
  | pint (n : Int)
  | pbool (b : Bool)
  | pnone
  | plist (elems : List PyVal)
  | pobj (fields : List (String × PyVal))
  deriving Repr, BEq

/-- Python `dict.get(key, default)`: the stored value when the key is
present, the default otherwise (src/genai.py lines 68-71). -/
def pyDictGet (fields : List (String × PyVal)) (key : String) (default : PyVal) : PyVal :=
  match fields.lookup key with
  | some v => v
  | none => default

/-- Lookup inside a `PyVal`, defined only on objects; used to state which
keys a returned dictionary carries. -/
def objLookup (v : PyVal) (key : String) : Option PyVal :=
  match v with
  | PyVal.pobj fields => fields.lookup key
  | _ => none

/-- One row of the uploaded Twitter CSV: columns `text`, `favorite_count`,
`view_count` (src/app.py line 188). -/
structure Row where
  text : String
  favorite_count : Int
  view_count : Int
  deriving Repr, DecidableEq

/-- Engagement of a row: `favorite_count / view_count` computed in float
arithmetic by src/app.py line 196.  Division by a zero view count yields
inf, -inf or nan, all of which the cleaning replaces by NaN and drops
(line 197); these non-finite outcomes are modelled as `none`.  For a
non-zero divisor the int64/int64 float division is always finite and has
the exact sign of the rational quotient, so `some (favorites / views)` in
ℚ is a faithful model for the finiteness and sign properties studied
here. -/
def engagement (r : Row) : Option ℚ :=
  if r.view_count = 0 then none
  else some ((r.favorite_count : ℚ) / (r.view_count : ℚ))

/-- Engagement cleaning of src/app.py lines 196-197: compute the
engagement column, replace infinities by NaN, and drop the rows whose
engagement is NaN — i.e. keep exactly the rows with a finite
engagement. -/
def cleanTwitterData (rows : List Row) : List Row :=
  rows.filter (fun r => (engagement r).isSome)

/-- External world the program talks to.  `backend prompt` is the outcome
of the chat-completion call for that prompt (`none` when the call raises);
`parse` is `json.loads` (`none` when parsing raises); `md` is the
`markdown.markdown` renderer; `sample` is the random sample of up to 50
tweets joined with separators that src/genai.py lines 35-36 embed into
the classification prompt (its randomness is irrelevant here because the
backend consuming the prompt is itself arbitrary). -/
structure Env where
  backend : String → Option String
  parse : String → Option PyVal
  md : String → String
  sample : List Row → String

/-- The fixed apology literal of src/genai.py line 31. -/
def apologyMessage : String := "Sorry, I couldn\x27t generate a response at the moment."

/-- `GenAI.generate_text` (src/genai.py lines 16-31): return the model
response, or the fixed apology string when the underlying call raises;
the exception is swallowed, never propagated. -/
def generate_text (env : Env) (prompt : String) : String :=
  match env.backend prompt with
  | some response => response
  | none => apologyMessage

/-- Classification prompt of src/genai.py lines 38-57, condensed to its
information content (the embedded tweet sample and the requested JSON
shape); its exact wording is inert because the backend is an arbitrary
function of the prompt. -/
def mbtiPrompt (tweetsText : String) : String :=
  "Based on the following tweets, analyze the likely MBTI personality type. Tweets: "
    ++ tweetsText
    ++ " Return JSON with keys mbti_type, scores (E I N S F T J P, each 0-100), explanation."

/-- The all-50 default score dict of src/genai.py lines 69-71, used when
the parsed response has no "scores" key at all. -/
def defaultScores : List (String × PyVal) :=
  [("E", PyVal.pint 50), ("I", PyVal.pint 50), ("N", PyVal.pint 50), ("S", PyVal.pint 50),
   ("F", PyVal.pint 50), ("T", PyVal.pint 50), ("J", PyVal.pint 50), ("P", PyVal.pint 50)]

/-- The hardcoded fallback score dict of src/genai.py line 77, returned
together with code "ENFP" when anything in the try block raises. -/
def fallbackScores : List (String × PyVal) :=
  [("E", PyVal.pint 60), ("I", PyVal.pint 40), ("N", PyVal.pint 70), ("S", PyVal.pint 30),
   ("F", PyVal.pint 65), ("T", PyVal.pint 35), ("J", PyVal.pint 45), ("P", PyVal.pint 55)]

/-- `GenAI.analyze_mbti` (src/genai.py lines 33-77).  The response text is
produced by `generate_text` (which never raises), then fed to
`json.loads`; if parsing raises, or the parsed value is not a dict (so
`.get` raises AttributeError), the except branch returns the hardcoded
fallback profile.  On a parsed dict, `mbti_type` defaults to "ENFP" and
`scores` defaults to the all-50 dict, each only when its key is absent. -/
def analyze_mbti (env : Env) (tweetsText : String) : PyVal × PyVal :=
  match env.parse (generate_text env (mbtiPrompt tweetsText)) with
  | some (PyVal.pobj fields) =>
      (pyDictGet fields "mbti_type" (PyVal.pstr "ENFP"),
       pyDictGet fields "scores" (PyVal.pobj defaultScores))
  | _ => (PyVal.pstr "ENFP", PyVal.pobj fallbackScores)

/-- Python `str()` as used by f-string interpolation of session values
into prompts; container formatting is abbreviated, which is inert because
the backend consuming the prompt is an arbitrary function. -/
def pyStr : PyVal → String
  | PyVal.pstr s => s
  | PyVal.pint n => toString n
  | PyVal.pbool true => "True"
  | PyVal.pbool false => "False"
  | PyVal.pnone => "None"
  | PyVal.plist _ => "[...]"
  | PyVal.pobj _ => "{...}"

/-- Itinerary prompt of src/genai.py lines 128-178, condensed to the data
it embeds (again inert: the backend is arbitrary).  Empty must-see and
food strings are falsy in Python, so `x or "None specified"` substitutes
the placeholder exactly when the string is empty. -/
def planPrompt (mbti_type : PyVal) (city country : String) (duration : Int)
    (num_travelers : Int) (budget : String) (travel_style : List String)
    (accommodation_type must_see food : String) : String :=
  "Create a comprehensive " ++ toString duration ++ "-day travel plan for an "
    ++ pyStr mbti_type ++ " traveler visiting " ++ city ++ ", " ++ country
    ++ ". Number of Travelers: " ++ toString num_travelers
    ++ ". Budget Level: " ++ budget
    ++ ". Travel Styles: " ++ String.intercalate ", " travel_style
    ++ ". Accommodation Preference: " ++ accommodation_type
    ++ ". Must-See Attractions: " ++ (if must_see = "" then "None specified" else must_see)
    ++ ". Food Preferences: " ++ (if food = "" then "None specified" else food)
    ++ ". Output markdown with clear sections, estimated timings and costs."

/-- `GenAI.create_detailed_travel_plan` (src/genai.py lines 79-233): build
the prompt, obtain the response through `generate_text` (which never
raises — on backend failure the apology string becomes the plan body),
and return the five-key dictionary of lines 200-206.  The `start_date`
parameter is accepted and unused, exactly as in the source.  The except
branch of lines 210-233 fires only if the markdown renderer itself raises
and returns a dictionary with the same five keys, so the key structure
proved below holds on that branch too; `md` is modelled total. -/
def create_detailed_travel_plan (env : Env) (mbti_type : PyVal) (city country : String)
    (duration : Int) (num_travelers : Int) (budget : String) (travel_style : List String)
    (accommodation_type : String) (must_see_attractions : String)
    (food_preferences : String) (start_date : Option Int) : List (String × PyVal) :=
  let response := generate_text env
    (planPrompt mbti_type city country duration num_travelers budget travel_style
      accommodation_type must_see_attractions food_preferences)
  [("mbti_type", mbti_type),
   ("destination", PyVal.pstr (city ++ ", " ++ country)),
   ("duration", PyVal.pint duration),
   ("plan_markdown", PyVal.pstr response),
   ("plan_html", PyVal.pstr (env.md response))]

/-- The four options of the budget `select_slider` (src/app.py lines
319-329); the widget cannot produce any other value. -/
inductive Budget where
  | budget
  | moderate
  | luxury
  | ultraLuxury
  deriving Repr, DecidableEq

/-- Display name of a budget tier, the key of `budget_options`. -/
def budgetName : Budget → String
  | Budget.budget => "Budget"
  | Budget.moderate => "Moderate"
  | Budget.luxury => "Luxury"
  | Budget.ultraLuxury => "Ultra-Luxury"

/-- `budget_options` of src/app.py lines 319-324: the symbol each tier is
mapped to when the preferences are committed. -/
def budgetSymbol : Budget → String
  | Budget.budget => "$"
  | Budget.moderate => "$$"
  | Budget.luxury => "$$$"
  | Budget.ultraLuxury => "$$$$"

/-- The committed `travel_preferences` dictionary of src/app.py lines
369-382.  Dates are modelled as day ordinals (an `Int` increasing with
the calendar date), so `(end_date - start_date).days` is plain
subtraction. -/
structure TravelPreferences where
  country : String
  city : String
  start_date : Int
  end_date : Int
  num_travelers : Int
  budget : Budget
  budget_level : String
  travel_style : List String
  accommodation_type : String
  must_see_attractions : String
  food_preferences : String
  duration : Int
  deriving Repr, DecidableEq

/-- The widget values present on the Preferences page when the save
button is pressed (src/app.py lines 297-355).  `date_input` starts at
`None`, hence the `Option` dates; the number and budget widgets enforce
their own domains. -/
structure PrefsInput where
  country : String
  city : String
  start_date : Option Int
  end_date : Option Int
  num_travelers : Int
  budget : Budget
  travel_style : List String
  accommodation_type : String
  must_see_attractions : String
  food_preferences : String
  deriving Repr, DecidableEq

/-- Travel-style truncation of src/app.py lines 337-340: more than three
selected tags are cut back to the first three. -/
def truncatedStyles (styles : List String) : List String :=
  if styles.length > 3 then styles.take 3 else styles

/-- Whether the truncation of src/app.py lines 337-340 shows its warning
message ("Please select a maximum of 3 travel styles."). -/
def styleWarning (styles : List String) : Bool :=
  styles.length > 3

/-- Outcome of pressing "Save Preferences and Generate Plan". -/
inductive SaveResult where
  | validationError (msg : String)
  | saved (prefs : TravelPreferences)
  deriving Repr, DecidableEq

/-- The save-button handler of src/app.py lines 358-386.  The style list
reaching the handler is the already-truncated one of lines 337-340.
Python's `not country` is the empty-string test; `not start_date` is the
`None` test (a date object is always truthy); the branches are checked in
source order. -/
def savePreferences (inp : PrefsInput) : SaveResult :=
  if inp.country = "" ∨ inp.city = "" then
    SaveResult.validationError "Please enter both country and city."
  else
    match inp.start_date, inp.end_date with
    | some sd, some ed =>
        if sd ≥ ed then
          SaveResult.validationError "End date must be after start date."
        else if (truncatedStyles inp.travel_style).length > 3 then
          SaveResult.validationError "Please select a maximum of 3 travel styles."
        else
          SaveResult.saved
            { country := inp.country
              city := inp.city
              start_date := sd
              end_date := ed
              num_travelers := inp.num_travelers
              budget := inp.budget
              budget_level := budgetSymbol inp.budget
              travel_style := truncatedStyles inp.travel_style
              accommodation_type := inp.accommodation_type
              must_see_attractions := inp.must_see_attractions
              food_preferences := inp.food_preferences
              duration := ed - sd + 1 }
    | _, _ => SaveResult.validationError "Please select both start and end dates."

/-- The Streamlit session state of src/app.py lines 140-153.
`travel_preferences` starts as the empty dict `{}` (modelled `none`, and
any page dereferencing its entries with `[...]` crashes on it);
`travel_plan` starts as `None` and the page-2 guard of line 407 tests
exactly this falsiness (the generated plan is a non-empty dict, hence
truthy).  `mbti` and `mbti_scores` start as `None` (`pnone`). -/
structure AppState where
  page : Nat
  twitter_data : Option (List Row)
  mbti : PyVal
  mbti_scores : PyVal
  travel_preferences : Option TravelPreferences
  travel_plan : Option (List (String × PyVal))

/-- The session state created at session start (src/app.py lines
140-153). -/
def initialState : AppState :=
  { page := 0
    twitter_data := none
    mbti := PyVal.pnone
    mbti_scores := PyVal.pnone
    travel_preferences := none
    travel_plan := none }

/-- The sample profile scores of src/app.py lines 234-239. -/
def sampleScores : List (String × PyVal) :=
  [("E", PyVal.pint 75), ("I", PyVal.pint 25), ("N", PyVal.pint 80), ("S", PyVal.pint 20),
   ("F", PyVal.pint 65), ("T", PyVal.pint 35), ("P", PyVal.pint 70), ("J", PyVal.pint 30)]

/-- User-triggered events of the wizard.  The four sidebar buttons of
src/app.py lines 164-167 are rendered on every page; the remaining
actions are the page-local buttons and the CSV upload of page 0. -/
inductive Action where
  | navSidebar (i : Fin 4)
  | uploadAnalyze (rows : List Row)
  | useSampleData
  | proceedToPreferences
  | savePrefs (inp : PrefsInput)
  | backToPreferences
  | downloadTravelPlan
  | goToPlanGenerator

/-- Effect of one user action on the session state; `none` means the
action is not available in that state (its button is not rendered there).
`navSidebar` (lines 164-167) sets the page unconditionally.
`uploadAnalyze` (lines 185-205) cleans the dataset and stores the
classification; `useSampleData` (lines 230-241) stores the fixed sample
profile; `proceedToPreferences` (lines 222-224, 257-259) moves 0 → 1;
`savePrefs` (lines 358-386) validates, and on success commits the
preferences and moves 1 → 2, on failure shows the error and leaves the
state untouched; `backToPreferences` / `downloadTravelPlan` (lines
437-444) move 2 → 1 / 2 → 3; `goToPlanGenerator` (lines 453-457) is
rendered on page 3 only when no plan is present and moves 3 → 2.
No action ever writes `travel_plan`. -/
def applyAction (env : Env) (s : AppState) (a : Action) : Option AppState :=
  match a with
  | Action.navSidebar i => some { s with page := i.val }
  | Action.uploadAnalyze rows =>
      if s.page = 0 then
        let cleaned := cleanTwitterData rows
        let result := analyze_mbti env (env.sample cleaned)
        some { s with twitter_data := some cleaned
                      mbti := result.1
                      mbti_scores := result.2 }
      else none
  | Action.useSampleData =>
      if s.page = 0 then
        some { s with mbti := PyVal.pstr "ENFP"
                      mbti_scores := PyVal.pobj sampleScores }
      else none
  | Action.proceedToPreferences =>
      if s.page = 0 then some { s with page := 1 } else none
  | Action.savePrefs inp =>
      if s.page = 1 then
        match savePreferences inp with
        | SaveResult.saved p => some { s with travel_preferences := some p, page := 2 }
        | SaveResult.validationError _ => some s
      else none
  | Action.backToPreferences =>
      if s.page = 2 then some { s with page := 1 } else none
  | Action.downloadTravelPlan =>
      if s.page = 2 then some { s with page := 3 } else none
  | Action.goToPlanGenerator =>
      if s.page = 3 then
        match s.travel_plan with
        | none => some { s with page := 2 }
        | some _ => none
      else none

/-- The plan generated by the page-2 rendering (src/app.py lines
410-423): `create_detailed_travel_plan` applied to the session MBTI value
and every committed preference field, `budget` being the tier name. -/
def planOf (env : Env) (s : AppState) (p : TravelPreferences) : List (String × PyVal) :=
  create_detailed_travel_plan env s.mbti p.city p.country p.duration p.num_travelers
    (budgetName p.budget) p.travel_style p.accommodation_type p.must_see_attractions
    p.food_preferences (some p.start_date)

/-- Rendering pass of the current page (the top-to-bottom script run of
src/app.py lines 173-529 after the widgets have settled).  Page 2
dereferences `preferences['city']` (line 399), which raises KeyError when
the preferences dict is still empty (`none` result = crash); otherwise it
generates the plan lazily exactly when `travel_plan` is falsy (lines
407-423) and stores it, and reuses the stored plan untouched otherwise.
Page 3 with a plan also dereferences the preferences (line 463); page 3
without a plan only shows a warning.  No other page writes any session
variable during rendering. -/
def render (env : Env) (s : AppState) : Option AppState :=
  if s.page = 2 then
    match s.travel_preferences with
    | none => none
    | some p =>
        match s.travel_plan with
        | none => some { s with travel_plan := some (planOf env s p) }
        | some _ => some s
  else if s.page = 3 then
    match s.travel_plan with
    | none => some s
    | some _ =>
        match s.travel_preferences with
        | none => none
        | some _ => some s
  else some s

/-- One wizard step: a user action followed by the rerun that renders the
resulting page. -/
def step (env : Env) (s : AppState) (a : Action) : Option AppState :=
  (applyAction env s a).bind (render env)

/-- The Export-page title lookup of src/app.py line 465:
`travel_plan['title'] if 'title' in travel_plan else 'Your Personalized
Itinerary'`. -/
def exportTitle (plan : List (String × PyVal)) : PyVal :=
  match plan.lookup "title" with
  | some v => v
  | none => PyVal.pstr "Your Personalized Itinerary"

/-! Concrete fixtures used to instantiate the theorems below. -/

/-- An environment whose transport always raises and whose parser always
fails (a fully unreachable backend). -/
def failEnv : Env :=
  { backend := fun _ => none
    parse := fun _ => none
    md := id
    sample := fun _ => "" }

/-- An environment whose backend answers with a well-formed JSON object
whose `scores` object carries only the key `E` (the other seven score
keys are absent). -/
def partialScoresEnv : Env :=
  { backend := fun _ => some "response"
    parse := fun _ => some (PyVal.pobj
      [("mbti_type", PyVal.pstr "INTJ"),
       ("scores", PyVal.pobj [("E", PyVal.pint 60)])])
    md := id
    sample := fun _ => "" }

/-- An environment whose backend answers with a well-formed JSON object
that has no `scores` key at all. -/
def noScoresEnv : Env :=
  { backend := fun _ => some "response"
    parse := fun _ => some (PyVal.pobj [("mbti_type", PyVal.pstr "INTJ")])
    md := id
    sample := fun _ => "" }

/-- Preferences input with an empty country and every other field valid
(the spec example: city Paris, 2024-01-01 to 2024-01-05, given as
proleptic day ordinals). -/
def prefsInputEmptyCountry : PrefsInput :=
  { country := ""
    city := "Paris"
    start_date := some 738886
    end_date := some 738890
    num_travelers := 2
    budget := Budget.moderate
    travel_style := ["Cultural"]
    accommodation_type := "Any"
    must_see_attractions := ""
    food_preferences := "" }

/-- Preferences input whose end date (2024-01-05) precedes its start date
(2024-01-10), all other fields valid. -/
def prefsInputEndBeforeStart : PrefsInput :=
  { country := "France"
    city := "Paris"
    start_date := some 738895
    end_date := some 738890
    num_travelers := 2
    budget := Budget.moderate
    travel_style := ["Cultural"]
    accommodation_type := "Any"
    must_see_attractions := ""
    food_preferences := "" }

/-- A fully valid preferences input: France/Paris, 2024-03-01 to
2024-03-05 (ordinals 738946 and 738950, the spec's duration example). -/
def validPrefsInput : PrefsInput :=
  { country := "France"
    city := "Paris"
    start_date := some 738946
    end_date := some 738950
    num_travelers := 2
    budget := Budget.moderate
    travel_style := ["Cultural"]
    accommodation_type := "Any"
    must_see_attractions := ""
    food_preferences := "" }

/-- The record that `savePreferences` commits for `validPrefsInput`. -/
def committedPrefsExample : TravelPreferences :=
  { country := "France"
    city := "Paris"
    start_date := 738946
    end_date := 738950
    num_travelers := 2
    budget := Budget.moderate
    budget_level := "$$"
    travel_style := ["Cultural"]
    accommodation_type := "Any"
    must_see_attractions := ""
    food_preferences := ""
    duration := 5 }

/-- A session sitting on the Export page with no travel plan. -/
def stateExportNoPlan : AppState :=
  { initialState with page := 3 }

/-- A stand-in for an already stored travel plan. -/
def planExample : List (String × PyVal) :=
  [("mbti_type", PyVal.pstr "ENFP"), ("destination", PyVal.pstr "Paris, France")]

/-- A session on the Preferences page that already holds a cached travel
plan (and committed preferences). -/
def statePlanCachedPrefsPage : AppState :=
  { initialState with
      page := 1
      travel_preferences := some committedPrefsExample
      travel_plan := some planExample }

/-! Theorems settling the claims. -/

/-- C9: for every prompt, when the underlying text-completion call fails,
`generate_text` returns exactly the fixed apology string "Sorry, I
couldn't generate a response at the moment." — and, being a total
function into `String`, it propagates no exception. -/
theorem c9_generate_text_failure_apology (env : Env) (prompt : String)
    (hfail : env.backend prompt = none) :
    generate_text env prompt = apologyMessage := by
  unfold generate_text
  rw [hfail]

/-- Witness for C9 at the concrete failing environment and a concrete
prompt. -/
theorem c9_witness :
    generate_text failEnv "Describe the ENFP personality type" = apologyMessage :=
  c9_generate_text_failure_apology failEnv "Describe the ENFP personality type" rfl

/-- C4: whenever the classification backend fails — the transport raises
(and the apology string that replaces the response is not valid JSON), or
the response text is not valid JSON — `analyze_mbti` returns exactly the
code "ENFP" and exactly the score map E 60, I 40, N 70, S 30, F 65, T 35,
J 45, P 55. -/
theorem c4_backend_failure_fallback_profile (env : Env) (tweetsText : String)
    (hfail : (env.backend (mbtiPrompt tweetsText) = none ∧ env.parse apologyMessage = none)
      ∨ (∃ s, env.backend (mbtiPrompt tweetsText) = some s ∧ env.parse s = none)) :
    analyze_mbti env tweetsText = (PyVal.pstr "ENFP", PyVal.pobj fallbackScores) := by
  unfold analyze_mbti generate_text
  rcases hfail with ⟨hb, hp⟩ | ⟨s, hb, hp⟩ <;> rw [hb] <;> rw [hp]

/-- Witness for C4 at the concrete unreachable backend. -/
theorem c4_witness :
    analyze_mbti failEnv "some tweets" = (PyVal.pstr "ENFP", PyVal.pobj fallbackScores) :=
  c4_backend_failure_fallback_profile failEnv "some tweets" (Or.inl ⟨rfl, rfl⟩)

/-- C5 counterexample: a well-formed JSON response whose scores object
carries only the key E (so I, N, S, T, F, J and P are absent) makes
`analyze_mbti` return that partial map unchanged — the missing key I maps
to nothing, not to 50 — refuting the claim that each missing score key is
given the value 50. -/
theorem c5_counterexample :
    (analyze_mbti partialScoresEnv "some tweets").2 = PyVal.pobj [("E", PyVal.pint 60)]
    ∧ objLookup (analyze_mbti partialScoresEnv "some tweets").2 "I" = none := by
  exact ⟨rfl, rfl⟩

/-- C5 amended: the 50-defaulting happens only for the `scores` key as a
whole — when the parsed object has no `scores` key, the full default map
with every one of the eight keys at 50 is returned; when a `scores` value
is present it is returned exactly as received, so individually missing
keys inside it are not filled in. -/
theorem c5_missing_scores_default (env : Env) (tweetsText : String)
    (fields : List (String × PyVal))
    (hparse : env.parse (generate_text env (mbtiPrompt tweetsText)) = some (PyVal.pobj fields)) :
    (fields.lookup "scores" = none → (analyze_mbti env tweetsText).2 = PyVal.pobj defaultScores)
    ∧ (∀ sc, fields.lookup "scores" = some sc → (analyze_mbti env tweetsText).2 = sc) := by
  unfold analyze_mbti
  rw [hparse]
  constructor
  · intro h
    simp [pyDictGet, h]
  · intro sc h
    simp [pyDictGet, h]

/-- Witness for C5 at the concrete backend whose response has no scores
key: the full all-50 default map is returned. -/
theorem c5_witness :
    (analyze_mbti noScoresEnv "some tweets").2 = PyVal.pobj defaultScores :=
  (c5_missing_scores_default noScoresEnv "some tweets"
    [("mbti_type", PyVal.pstr "INTJ")] rfl).1 rfl

/-- C1 counterexample: the row with favorite_count -1 and view_count 1 is
retained by the engagement cleaning, and its engagement is the finite but
negative value -1 — refuting non-negativity for arbitrary integer
inputs. -/
theorem c1_counterexample :
    cleanTwitterData [Row.mk "t" (-1) 1] = [Row.mk "t" (-1) 1]
    ∧ engagement (Row.mk "t" (-1) 1) = some (-1 : ℚ)
    ∧ ¬ (0 : ℚ) ≤ (-1 : ℚ) := by
  refine ⟨by decide, ?_, by norm_num⟩
  unfold engagement
  norm_num

/-- C1 amended: every row retained by the engagement cleaning has a
finite engagement value, and whenever the row's favorite and view counts
are both non-negative its engagement is also non-negative; for a negative
favorite count with a positive view count the retained engagement is
negative, so unconditional non-negativity fails. -/
theorem c1_retained_engagement (rows : List Row) (r : Row)
    (hr : r ∈ cleanTwitterData rows) :
    (engagement r).isSome = true
    ∧ (0 ≤ r.favorite_count → 0 ≤ r.view_count →
        ∀ q : ℚ, engagement r = some q → 0 ≤ q) := by
  have hsome := (List.mem_filter.mp hr).2
  refine ⟨hsome, ?_⟩
  intro hf hv q hq
  unfold engagement at hq
  by_cases h0 : r.view_count = 0
  · simp [h0] at hq
  · simp only [h0, if_false, Option.some.injEq] at hq
    rw [← hq]
    exact div_nonneg (by exact_mod_cast hf) (by exact_mod_cast hv)

/-- Witness for C1 at a concrete retained row with non-negative counts. -/
theorem c1_witness :
    (engagement (Row.mk "b" 2 4)).isSome = true ∧ (0 : ℚ) ≤ (1 / 2 : ℚ) := by
  have h := c1_retained_engagement [Row.mk "b" 2 4] (Row.mk "b" 2 4) (by decide)
  have he : engagement (Row.mk "b" 2 4) = some (1 / 2 : ℚ) := by
    unfold engagement
    norm_num
  exact ⟨h.1, h.2 (by decide) (by decide) (1 / 2 : ℚ) he⟩

/-- C7: the engagement cleaning excludes every row whose view count is
zero and every row with non-finite engagement, and the cleaned dataset is
never longer than the input. -/
theorem c7_engagement_cleaning (rows : List Row) :
    (∀ r ∈ rows, r.view_count = 0 → r ∉ cleanTwitterData rows)
    ∧ (∀ r ∈ rows, engagement r = none → r ∉ cleanTwitterData rows)
    ∧ (cleanTwitterData rows).length ≤ rows.length := by
  refine ⟨?_, ?_, List.length_filter_le _ _⟩
  · intro r _ h0 hmem
    have hsome := (List.mem_filter.mp hmem).2
    unfold engagement at hsome
    simp [h0] at hsome
  · intro r _ hnone hmem
    have hsome := (List.mem_filter.mp hmem).2
    rw [hnone] at hsome
    exact Bool.noConfusion hsome

/-- Witness for C7: a zero-view row is excluded from a concrete
two-row dataset and the cleaned length is bounded by the input length. -/
theorem c7_witness :
    (Row.mk "a" 1 0 ∉ cleanTwitterData [Row.mk "a" 1 0, Row.mk "b" 2 1])
    ∧ (cleanTwitterData [Row.mk "a" 1 0, Row.mk "b" 2 1]).length ≤ 2 := by
  have h := c7_engagement_cleaning [Row.mk "a" 1 0, Row.mk "b" 2 1]
  exact ⟨h.1 (Row.mk "a" 1 0) (by decide) rfl, h.2.2⟩

/-- The truncation of src/app.py lines 337-340 leaves at most three
style tags, so the style branch of the save validation can never fire. -/
theorem truncatedStyles_length_le (l : List String) : (truncatedStyles l).length ≤ 3 := by
  unfold truncatedStyles
  split
  · simp
  · omega

/-- C6: on the Preferences page, an empty country yields the inline
validation error with the state (preferences and page) unchanged; an end
date on or before the start date likewise yields the inline error with no
state change; and a selection of four style tags is truncated to the
first three with a warning, never reaching the too-many-styles error. -/
theorem c6_preferences_validation (env : Env) (s : AppState) (inp : PrefsInput)
    (hpage : s.page = 1) :
    (inp.country = "" →
      savePreferences inp = SaveResult.validationError "Please enter both country and city."
      ∧ applyAction env s (Action.savePrefs inp) = some s)
    ∧ (∀ sd ed, inp.country ≠ "" → inp.city ≠ "" →
      inp.start_date = some sd → inp.end_date = some ed → ed ≤ sd →
      savePreferences inp = SaveResult.validationError "End date must be after start date."
      ∧ applyAction env s (Action.savePrefs inp) = some s)
    ∧ (∀ t1 t2 t3 t4, inp.travel_style = [t1, t2, t3, t4] →
      truncatedStyles inp.travel_style = [t1, t2, t3]
      ∧ styleWarning inp.travel_style = true
      ∧ savePreferences inp
          ≠ SaveResult.validationError "Please select a maximum of 3 travel styles.") := by
  refine ⟨?_, ?_, ?_⟩
  · intro hc
    have hsave : savePreferences inp
        = SaveResult.validationError "Please enter both country and city." := by
      unfold savePreferences
      rw [if_pos (Or.inl hc)]
    refine ⟨hsave, ?_⟩
    simp [applyAction, hpage, hsave]
  · intro sd ed hc hcity hsd hed hle
    have hsave : savePreferences inp
        = SaveResult.validationError "End date must be after start date." := by
      unfold savePreferences
      rw [if_neg (by simp [hc, hcity]), hsd, hed]
      simp only
      rw [if_pos (by omega)]
    refine ⟨hsave, ?_⟩
    simp [applyAction, hpage, hsave]
  · intro t1 t2 t3 t4 hts
    refine ⟨by simp [truncatedStyles, hts], by simp [styleWarning, hts], ?_⟩
    intro hsave
    unfold savePreferences at hsave
    split at hsave
    · simp at hsave
    · split at hsave
      · split at hsave
        · simp at hsave
        · split at hsave
          · rename_i hlen
            exact absurd (truncatedStyles_length_le inp.travel_style) (by omega)
          · exact SaveResult.noConfusion hsave
      · simp at hsave

/-- Witness for C6 at the three concrete spec examples (empty country;
end 2024-01-05 before start 2024-01-10; four style tags). -/
theorem c6_witness :
    savePreferences prefsInputEmptyCountry
      = SaveResult.validationError "Please enter both country and city."
    ∧ savePreferences prefsInputEndBeforeStart
      = SaveResult.validationError "End date must be after start date."
    ∧ truncatedStyles ["Adventure", "Relaxation", "Cultural", "Foodie"]
      = ["Adventure", "Relaxation", "Cultural"] := by
  have h1 := (c6_preferences_validation failEnv { initialState with page := 1 }
    prefsInputEmptyCountry rfl).1 rfl
  have h2 := ((c6_preferences_validation failEnv { initialState with page := 1 }
    prefsInputEndBeforeStart rfl).2.1) 738895 738890 (by decide) (by decide) rfl rfl (by omega)
  have h3 := ((c6_preferences_validation failEnv
    { initialState with page := 1 }
    { prefsInputEndBeforeStart with
        travel_style := ["Adventure", "Relaxation", "Cultural", "Foodie"] } rfl).2.2)
    "Adventure" "Relaxation" "Cultural" "Foodie" rfl
  exact ⟨h1.1, h2.1, h3.1⟩

/-- C10: every preferences record committed by the state-1 save action
has duration equal to (end date - start date) + 1 and at least 2, because
the validation rejects any start date on or after the end date before
committing; the successful save stores exactly this record and advances
to state 2. -/
theorem c10_duration_bound (inp : PrefsInput) (p : TravelPreferences)
    (h : savePreferences inp = SaveResult.saved p) :
    p.duration = p.end_date - p.start_date + 1
    ∧ 2 ≤ p.duration
    ∧ ∀ env : Env, ∀ s : AppState, s.page = 1 →
        applyAction env s (Action.savePrefs inp)
          = some { s with travel_preferences := some p, page := 2 } := by
  have hmain : p.duration = p.end_date - p.start_date + 1 ∧ 2 ≤ p.duration := by
    unfold savePreferences at h
    split at h
    · exact SaveResult.noConfusion h
    · split at h
      · rename_i sd ed
        split at h
        · exact SaveResult.noConfusion h
        · split at h
          · exact SaveResult.noConfusion h
          · rename_i hge _
            have hp := SaveResult.saved.inj h
            rw [← hp]
            constructor
            · rfl
            · simp only
              omega
      · exact SaveResult.noConfusion h
  refine ⟨hmain.1, hmain.2, ?_⟩
  intro env s hpage
  simp [applyAction, hpage, h]

/-- Witness for C10 at the concrete valid preferences input
(2024-03-01 to 2024-03-05, committed duration 5). -/
theorem c10_witness :
    committedPrefsExample.duration
      = committedPrefsExample.end_date - committedPrefsExample.start_date + 1
    ∧ 2 ≤ committedPrefsExample.duration := by
  have h := c10_duration_bound validPrefsInput committedPrefsExample (by decide)
  exact ⟨h.1, h.2.1⟩

/-- No user action writes the `travel_plan` session variable: every
enabled action leaves it exactly as it was (only the page-2 rendering of
lines 407-423 ever assigns it). -/
theorem applyAction_preserves_plan (env : Env) (s : AppState) (a : Action) (s' : AppState)
    (h : applyAction env s a = some s') : s'.travel_plan = s.travel_plan := by
  cases a <;> simp only [applyAction] at h
  case navSidebar i =>
    cases h
    rfl
  case uploadAnalyze rows =>
    split at h
    · cases h
      rfl
    · exact Option.noConfusion h
  case useSampleData =>
    split at h
    · cases h
      rfl
    · exact Option.noConfusion h
  case proceedToPreferences =>
    split at h
    · cases h
      rfl
    · exact Option.noConfusion h
  case savePrefs inp =>
    split at h
    · split at h
      · cases h
        rfl
      · cases h
        rfl
    · exact Option.noConfusion h
  case backToPreferences =>
    split at h
    · cases h
      rfl
    · exact Option.noConfusion h
  case downloadTravelPlan =>
    split at h
    · cases h
      rfl
    · exact Option.noConfusion h
  case goToPlanGenerator =>
    split at h
    · split at h
      · cases h
        rfl
      · exact Option.noConfusion h
    · exact Option.noConfusion h

/-- Once a travel plan is stored, a rendering pass returns it
untouched: the page-2 guard of line 407 only generates when the stored
plan is falsy. -/
theorem render_preserves_some_plan (env : Env) (s : AppState)
    (plan : List (String × PyVal)) (s' : AppState)
    (hp : s.travel_plan = some plan) (h : render env s = some s') :
    s'.travel_plan = some plan := by
  unfold render at h
  split at h
  · split at h
    · exact Option.noConfusion h
    · rw [hp] at h
      simp only at h
      cases h
      exact hp
  · split at h
    · rw [hp] at h
      simp only at h
      split at h
      · exact Option.noConfusion h
      · cases h
        exact hp
    · cases h
      exact hp

/-- C2 counterexample: from the Export page with no travel plan, the
always-rendered sidebar button for page 0 is an allowed transition to
state 0, refuting the claim that the only allowed transition is to
state 2. -/
theorem c2_counterexample :
    stateExportNoPlan.page = 3
    ∧ stateExportNoPlan.travel_plan = none
    ∧ applyAction failEnv stateExportNoPlan (Action.navSidebar 0)
        = some { stateExportNoPlan with page := 0 }
    ∧ (0 : Nat) ≠ 2 := by
  exact ⟨rfl, rfl, rfl, by decide⟩

/-- C2 amended: from state 3 with no travel plan, the only page-content
transition is the go-to-plan-generator button leading to state 2; the
sidebar navigation buttons additionally allow jumping to any of the four
states; and state 3 itself never produces a travel plan — neither its
actions (the plan stays absent) nor its rendering pass (which leaves the
state untouched). -/
theorem c2_export_page_transitions (env : Env) (s : AppState) (a : Action) (s' : AppState)
    (hpage : s.page = 3) (hplan : s.travel_plan = none)
    (hstep : applyAction env s a = some s') :
    s'.travel_plan = none
    ∧ ((∃ i : Fin 4, a = Action.navSidebar i) ∨ (a = Action.goToPlanGenerator ∧ s'.page = 2))
    ∧ render env s = some s := by
  have hpres : s'.travel_plan = s.travel_plan := applyAction_preserves_plan env s a s' hstep
  have hrender : render env s = some s := by
    unfold render
    rw [if_neg (by omega), if_pos hpage, hplan]
  refine ⟨hpres.trans hplan, ?_, hrender⟩
  cases a <;> simp only [applyAction] at hstep
  case navSidebar i => exact Or.inl ⟨i, rfl⟩
  case uploadAnalyze rows =>
    rw [if_neg (by omega)] at hstep
    exact Option.noConfusion hstep
  case useSampleData =>
    rw [if_neg (by omega)] at hstep
    exact Option.noConfusion hstep
  case proceedToPreferences =>
    rw [if_neg (by omega)] at hstep
    exact Option.noConfusion hstep
  case savePrefs inp =>
    rw [if_neg (by omega)] at hstep
    exact Option.noConfusion hstep
  case backToPreferences =>
    rw [if_neg (by omega)] at hstep
    exact Option.noConfusion hstep
  case downloadTravelPlan =>
    rw [if_neg (by omega)] at hstep
    exact Option.noConfusion hstep
  case goToPlanGenerator =>
    rw [if_pos hpage, hplan] at hstep
    simp only at hstep
    cases hstep
    exact Or.inr ⟨rfl, rfl⟩

/-- Witness for C2 at the concrete Export-page session without a plan,
taking the go-to-plan-generator button. -/
theorem c2_witness :
    ({ stateExportNoPlan with page := 2 } : AppState).travel_plan = none
    ∧ render failEnv stateExportNoPlan = some stateExportNoPlan := by
  have h := c2_export_page_transitions failEnv stateExportNoPlan Action.goToPlanGenerator
    { stateExportNoPlan with page := 2 } rfl rfl rfl
  exact ⟨h.1, h.2.2⟩

/-- C3: the travel plan is generated at most once per session — the
page-2 rendering creates it exactly when the page is viewed with no
stored plan (and committed preferences, without which the page crashes
before generating), and once a plan is stored every further step, through
any action including a preferences re-save, carries the very same plan
through to the resulting state: no regeneration ever happens. -/
theorem c3_plan_generated_at_most_once (env : Env) :
    (∀ s : AppState, ∀ p : TravelPreferences, s.page = 2 → s.travel_plan = none →
      s.travel_preferences = some p →
      render env s = some { s with travel_plan := some (planOf env s p) })
    ∧ (∀ s : AppState, ∀ plan : List (String × PyVal), ∀ a : Action, ∀ s' : AppState,
      s.travel_plan = some plan → step env s a = some s' →
      s'.travel_plan = some plan) := by
  constructor
  · intro s p hpage hplan hprefs
    unfold render
    rw [if_pos hpage, hprefs]
    simp only
    rw [hplan]
  · intro s plan a s' hplan hstep
    unfold step at hstep
    rcases Option.bind_eq_some.mp hstep with ⟨s₁, happly, hrender⟩
    have h₁ : s₁.travel_plan = some plan :=
      (applyAction_preserves_plan env s a s₁ happly).trans hplan
    exact render_preserves_some_plan env s₁ plan s' h₁ hrender

/-- Witness for C3: a session holding a cached plan re-saves changed
preferences and lands back on the Plan page; the resulting state still
carries the original cached plan. -/
theorem c3_witness :
    ({ statePlanCachedPrefsPage with
        page := 2
        travel_preferences := some committedPrefsExample } : AppState).travel_plan
      = some planExample := by
  exact (c3_plan_generated_at_most_once failEnv).2 statePlanCachedPrefsPage planExample
    (Action.savePrefs validPrefsInput)
    { statePlanCachedPrefsPage with
        page := 2
        travel_preferences := some committedPrefsExample }
    rfl (by rfl)

/-- C8 counterexample: a travel plan produced by
`create_detailed_travel_plan` at concrete inputs carries no `title` key
at all, refuting the claim that every produced plan holds a title (the
Export page has to substitute a default). -/
theorem c8_counterexample :
    (create_detailed_travel_plan failEnv (PyVal.pstr "ENFP") "Paris" "France" 5 2
        "Moderate" ["Cultural"] "Any" "" "" (some 738946)).lookup "title" = none
    ∧ exportTitle (create_detailed_travel_plan failEnv (PyVal.pstr "ENFP") "Paris" "France"
        5 2 "Moderate" ["Cultural"] "Any" "" "" (some 738946))
      = PyVal.pstr "Your Personalized Itinerary" := by
  exact ⟨rfl, rfl⟩

/-- C8 amended: every travel plan produced by the itinerary generation
holds the personality code, the destination label "city, country", the
duration, and the itinerary content in two renderings — the raw markdown
body and its HTML rendering — but no title; the Export page substitutes
the fixed default title "Your Personalized Itinerary" for the absent
key. -/
theorem c8_travel_plan_fields (env : Env) (mbti_type : PyVal) (city country : String)
    (duration num_travelers : Int) (budget : String) (travel_style : List String)
    (accommodation_type must_see food : String) (start_date : Option Int) :
    (create_detailed_travel_plan env mbti_type city country duration num_travelers budget
        travel_style accommodation_type must_see food start_date).lookup "mbti_type"
      = some mbti_type
    ∧ (create_detailed_travel_plan env mbti_type city country duration num_travelers budget
        travel_style accommodation_type must_see food start_date).lookup "destination"
      = some (PyVal.pstr (city ++ ", " ++ country))
    ∧ (create_detailed_travel_plan env mbti_type city country duration num_travelers budget
        travel_style accommodation_type must_see food start_date).lookup "duration"
      = some (PyVal.pint duration)
    ∧ (∃ body : String,
        (create_detailed_travel_plan env mbti_type city country duration num_travelers budget
            travel_style accommodation_type must_see food start_date).lookup "plan_markdown"
          = some (PyVal.pstr body)
        ∧ (create_detailed_travel_plan env mbti_type city country duration num_travelers budget
            travel_style accommodation_type must_see food start_date).lookup "plan_html"
          = some (PyVal.pstr (env.md body)))
    ∧ (create_detailed_travel_plan env mbti_type city country duration num_travelers budget
        travel_style accommodation_type must_see food start_date).lookup "title" = none
    ∧ exportTitle (create_detailed_travel_plan env mbti_type city country duration
        num_travelers budget travel_style accommodation_type must_see food start_date)
      = PyVal.pstr "Your Personalized Itinerary" := by
  refine ⟨?_, ?_, ?_, ?_, ?_, ?_⟩
  · simp [create_detailed_travel_plan, List.lookup]
  · simp [create_detailed_travel_plan, List.lookup]
  · simp [create_detailed_travel_plan, List.lookup]
  · exact ⟨generate_text env (planPrompt mbti_type city country duration num_travelers budget
      travel_style accommodation_type must_see food),
      by simp [create_detailed_travel_plan, List.lookup],
      by simp [create_detailed_travel_plan, List.lookup]⟩
  · simp [create_detailed_travel_plan, List.lookup]
  · simp [exportTitle, create_detailed_travel_plan, List.lookup]

end SOMAI
